import Mathlib

/-!
Verification development for the `angular-lab` autocomplete widget.

The development shallowly embeds the interaction/state core of the repository:
the Panel (`AutoComplete`, `src/src/auto-complete/auto-complete.ts` and its
documented variant `src/unnamed/part_000`) and the Trigger
(`AutoCompleteDirective`; the refactored variant `src/unnamed/part_001`, whose
structure the repository documents in `REFACTORING_NOTES.md` as the current
one, with `src/src/auto-complete/directive.ts` as the pre-refactor state).

The `SelectionModel` (`@angular/cdk/collections`), the
`ActiveDescendantKeyManager` (`@angular/cdk/a11y`), `hasModifierKey`
(`@angular/cdk/keycodes`) and `MatOption` (`@angular/material/core`) are
imported collaborators whose sources are not part of the repository; they are
modelled from the specification (sections 3, 4.1, 4.2), as marked on each
definition.
-/

namespace AngularLab

/-- One rendered option as the Panel sees it: an opaque value together with its
current selected flag. The skip predicate of the key navigation model is kept
abstract, so a separate disabled flag is not needed. -/
structure Opt (T : Type) where
  value : T
  selected : Bool
  deriving Repr, DecidableEq

/-- Modelled from the spec: the `SelectionModel` of `@angular/cdk/collections`
is imported by the Panel but its source is not part of this repository. Per
spec section 3 it holds an ordered sequence of selected values (insertion
order), a single/multiple flag, and an equality function. The equality
function is optional because the repository constructs the model as
`new SelectionModel<T>(multiple)` without supplying one; in that case plain
structural equality of values is in force. -/
structure SelectionModel (T : Type) where
  multiple : Bool
  compareWith : Option (T → T → Bool)
  selected : List T

variable {T : Type} [DecidableEq T]

/-- The equality function in force on a model: the supplied `compareWith` when
one was passed at construction, plain equality otherwise. -/
def SelectionModel.cmp (m : SelectionModel T) : T → T → Bool :=
  match m.compareWith with
  | some f => f
  | none => fun u v => decide (u = v)

/-- Modelled from the spec: `isSelected(value)` is a membership test via the
equality function — some stored value compares equal to the query. -/
def SelectionModel.isSelected (m : SelectionModel T) (v : T) : Bool :=
  m.selected.any (fun u => m.cmp u v)

/-- Modelled from the spec: `select(value)` is an idempotent add; in single
mode adding replaces any existing entry (size stays at most 1). -/
def SelectionModel.select (m : SelectionModel T) (v : T) : SelectionModel T :=
  if m.isSelected v then m
  else if m.multiple then { m with selected := m.selected ++ [v] }
  else { m with selected := [v] }

/-- Modelled from the spec: `deselect(value)` is an idempotent remove, per the
equality function. -/
def SelectionModel.deselect (m : SelectionModel T) (v : T) : SelectionModel T :=
  { m with selected := m.selected.filter (fun u => !(m.cmp u v)) }

/-- Modelled from the spec: `toggle(value)` removes the value if present (per
the equality function), else adds it. -/
def SelectionModel.toggle (m : SelectionModel T) (v : T) : SelectionModel T :=
  if m.isSelected v then m.deselect v else m.select v

/-- Modelled from the spec: `clear()` empties the set. -/
def SelectionModel.clear (m : SelectionModel T) : SelectionModel T :=
  { m with selected := [] }

/-- Modelled from the spec: `setSelection(...values)` replaces the entire
selected set, subject to the single/multiple constraint (single mode keeps
only the last value supplied). -/
def SelectionModel.setSelection (m : SelectionModel T) (vs : List T) : SelectionModel T :=
  vs.foldl (fun acc v => acc.select v) { m with selected := [] }

/-- Embeds `ngOnInit` of the Panel (`auto-complete.ts` lines 224-227, likewise
`part_000` lines 424-426): `this.selectionModel = new
SelectionModel<T>(this.multipleInput())`. Only the multiplicity flag is
passed; in particular the `compareWith` input of the component is not handed
to the model. -/
def ngOnInitSelectionModel (T : Type) (multipleInput : Bool) : SelectionModel T :=
  { multiple := multipleInput, compareWith := none, selected := [] }

/-- The Panel state manipulated by the option-selection subscription: the
rendered options (with their live flags), the selection model, the published
two-way `selected` value, and a counter of single-selection-completed
notifications. -/
structure PanelState (T : Type) where
  multiple : Bool
  options : List (Opt T)
  model : SelectionModel T
  published : List T
  singleSelectionEvents : Nat

/-- Marks the first option whose value the model reports selected
(`options.find(opt => selectionModel.isSelected(opt.value))?.select(false)`). -/
def markFirstSelected (m : SelectionModel T) : List (Opt T) → List (Opt T)
  | [] => []
  | o :: rest =>
    if m.isSelected o.value then { o with selected := true } :: rest
    else o :: markFirstSelected m rest

/-- The single-mode visual re-sync of the handler: clear every option flag
(`forEach(opt => opt.deselect(false))`, eventless), then mark the first option
matching the current model selection. -/
def resyncSingle (m : SelectionModel T) (opts : List (Opt T)) : List (Opt T) :=
  markFirstSelected m (opts.map (fun o => { o with selected := false }))

/-- Embeds the body of the Panel option-selection subscription
(`ngAfterContentInit` in `auto-complete.ts` lines 248-266,
`_subscribeToOptionSelectionChanges` in `part_000` lines 457-477), run once
per selection-change event; `v` is `event.source.value`. -/
def onSelectionChangeEvent (s : PanelState T) (v : T) : PanelState T :=
  let model1 := s.model.toggle v
  let model2 :=
    if s.multiple then
      let mA :=
        if s.options.all (fun o => o.selected) then
          model1.setSelection (s.options.map (fun o => o.value))
        else model1
      if s.options.all (fun o => !o.selected) then mA.clear else mA
    else model1
  let published := model2.selected
  if s.multiple then
    { s with model := model2, published := published }
  else
    { s with
        model := model2
        published := published
        options := resyncSingle model2 s.options
        singleSelectionEvents := s.singleSelectionEvents + 1 }

/-- A freshly initialized Panel: selection model from `ngOnInit`, published
`selected` value `[]` (`selected = model<T[]>([])`), options as rendered. -/
def panelInit (T : Type) (multipleInput : Bool) (opts : List (Opt T)) : PanelState T :=
  { multiple := multipleInput
    options := opts
    model := ngOnInitSelectionModel T multipleInput
    published := []
    singleSelectionEvents := 0 }

/-- Modelled from the spec: `MatOption.select` (Angular Material, not in this
repository) sets the option flag and emits one selection-change notification
when the flag actually changes; the Panel handler then runs synchronously on
that notification. -/
def userSelectOption (s : PanelState T) (i : Nat) : PanelState T :=
  match s.options.get? i with
  | none => s
  | some o =>
    if o.selected then s
    else
      onSelectionChangeEvent
        { s with options := s.options.set i { o with selected := true } } o.value

/-- Modelled from the spec: `MatOption.deselect`, dually to `userSelectOption`. -/
def userDeselectOption (s : PanelState T) (i : Nat) : PanelState T :=
  match s.options.get? i with
  | none => s
  | some o =>
    if o.selected then
      onSelectionChangeEvent
        { s with options := s.options.set i { o with selected := false } } o.value
    else s

/-- The `selected ? deselect() : select()` toggle applied to option `i`, used
by the Ctrl+A and Enter/Space branches of the Trigger. -/
def userToggleOption (s : PanelState T) (i : Nat) : PanelState T :=
  match s.options.get? i with
  | none => s
  | some o => if o.selected then userDeselectOption s i else userSelectOption s i

/-- A keyboard event as the Trigger sees it: the key string plus the four
modifier flags. -/
structure KeyEvent where
  key : String
  altKey : Bool
  ctrlKey : Bool
  shiftKey : Bool
  metaKey : Bool
  deriving Repr, DecidableEq

/-- Modelled from the spec: `hasModifierKey(event)` of `@angular/cdk/keycodes`
(not in this repository) — whether any of the four modifier flags is set.
The one-modifier form `hasModifierKey(event, "altKey")` is inlined as the
`altKey` flag where the Trigger uses it. -/
def hasAnyModifier (e : KeyEvent) : Bool :=
  e.altKey || e.ctrlKey || e.shiftKey || e.metaKey

/-- Modelled from the spec: the `ActiveDescendantKeyManager` of
`@angular/cdk/a11y` is imported but its source is not in this repository. Per
spec section 3 it tracks the active item index over the live, ordered item
list ("none" for -1/null), with wrap-around always enabled here and
predicate-based skipping. -/
structure KeyNav where
  active : Option Nat
  deriving Repr, DecidableEq

/-- Indices of the navigable (non-skipped) items, in list order. -/
def navigableIdxs (skip : Opt T → Bool) (items : List (Opt T)) : List Nat :=
  (List.range items.length).filter (fun i =>
    match items.get? i with
    | some o => !skip o
    | none => false)

/-- Modelled from the spec: activate the first non-skipped item; no-op when
every item is skipped or the list is empty. -/
def KeyNav.setFirstItemActive (skip : Opt T → Bool) (items : List (Opt T))
    (k : KeyNav) : KeyNav :=
  match (navigableIdxs skip items).head? with
  | some i => ⟨some i⟩
  | none => k

/-- Modelled from the spec: activate the last non-skipped item; no-op when
every item is skipped or the list is empty. -/
def KeyNav.setLastItemActive (skip : Opt T → Bool) (items : List (Opt T))
    (k : KeyNav) : KeyNav :=
  match (navigableIdxs skip items).getLast? with
  | some i => ⟨some i⟩
  | none => k

/-- Modelled from the spec: move to the next non-skipped item, wrapping from
last to first; with no active item this activates the first item. -/
def KeyNav.setNextItemActive (skip : Opt T → Bool) (items : List (Opt T))
    (k : KeyNav) : KeyNav :=
  match k.active with
  | none => KeyNav.setFirstItemActive skip items k
  | some a =>
    match ((navigableIdxs skip items).filter (fun i => decide (a < i))).head? with
    | some i => ⟨some i⟩
    | none =>
      match (navigableIdxs skip items).head? with
      | some i => ⟨some i⟩
      | none => k

/-- Modelled from the spec: move to the previous non-skipped item, wrapping
from first to last; with no active item this activates the last item. -/
def KeyNav.setPreviousItemActive (skip : Opt T → Bool) (items : List (Opt T))
    (k : KeyNav) : KeyNav :=
  match k.active with
  | none => KeyNav.setLastItemActive skip items k
  | some a =>
    match ((navigableIdxs skip items).filter (fun i => decide (i < a))).getLast? with
    | some i => ⟨some i⟩
    | none =>
      match (navigableIdxs skip items).getLast? with
      | some i => ⟨some i⟩
      | none => k

/-- Modelled from the spec: `onKeydown` of the key manager interprets the
directional keys Up/Down/Home/End without modifiers as navigation commands
and leaves other keys untouched. -/
def KeyNav.onKeydown (skip : Opt T → Bool) (items : List (Opt T)) (k : KeyNav)
    (e : KeyEvent) : KeyNav :=
  if hasAnyModifier e then k
  else if e.key == "ArrowDown" then KeyNav.setNextItemActive skip items k
  else if e.key == "ArrowUp" then KeyNav.setPreviousItemActive skip items k
  else if e.key == "Home" then KeyNav.setFirstItemActive skip items k
  else if e.key == "End" then KeyNav.setLastItemActive skip items k
  else k

/-- The skip predicate the Panel installs on its key manager
(`skipPredicate(() => this.skipPredicate())`, which is constantly false). -/
def noSkip {T : Type} : Opt T → Bool := fun _ => false

/-- The Trigger state: the bound Panel, the key manager, and the overlay
bookkeeping — attached flag, lazily built portal (with a build counter), open
signals and notification counters. -/
structure TriggerState (T : Type) where
  panel : PanelState T
  km : KeyNav
  attached : Bool
  portalBuilt : Bool
  portalBuildCount : Nat
  panelOpen : Bool
  isOpenSignal : Bool
  openedCount : Nat
  closedCount : Nat
  autoActiveFirstOption : Bool

/-- Embeds `openOverlay` of the refactored Trigger (`part_001` lines 250-274):
build the portal on the first call only, attach the portal, set the local and
Panel open signals, emit `opened`, and auto-activate the first item when
configured. The CDK overlay attachment is modelled by the `attached` flag. -/
def openOverlay (s : TriggerState T) : TriggerState T :=
  let s1 :=
    if s.portalBuilt then s
    else { s with portalBuilt := true, portalBuildCount := s.portalBuildCount + 1 }
  let s2 :=
    { s1 with
        attached := true
        panelOpen := true
        isOpenSignal := true
        openedCount := s1.openedCount + 1 }
  if s2.autoActiveFirstOption then
    { s2 with km := KeyNav.setFirstItemActive noSkip s2.panel.options s2.km }
  else s2

/-- Embeds `handleFocus` (`part_001` lines 185-189, `directive.ts` lines
116-119): on a focus-in event, open the overlay unless it is already attached.
This guarded entry point is the open operation of the Trigger — `openOverlay`
has no caller in the repository other than `handleFocus`. -/
def handleFocus (s : TriggerState T) : TriggerState T :=
  if s.attached then s else openOverlay s

/-- Embeds `closeOverlay` of the refactored Trigger (`part_001` lines
280-293): detach when attached, drop the open signals, reset the active item
to none and emit `closed`. -/
def closeOverlay (s : TriggerState T) : TriggerState T :=
  let s1 := if s.attached then { s with attached := false } else s
  { s1 with
      panelOpen := false
      km := ⟨none⟩
      isOpenSignal := false
      closedCount := s1.closedCount + 1 }

/-- Embeds `isKeydownCloseOverlay` (`part_001` lines 327-332): Escape without
modifiers, or ArrowUp with the Alt modifier. -/
def isKeydownCloseOverlay (e : KeyEvent) : Bool :=
  (e.key == "Escape" && !hasAnyModifier e) || (e.key == "ArrowUp" && e.altKey)

/-- Embeds `isKeydownOpenOverlay` (`part_001` lines 339-345): Alt+ArrowDown,
plain ArrowUp, or plain ArrowDown. -/
def isKeydownOpenOverlay (e : KeyEvent) : Bool :=
  (e.key == "ArrowDown" && e.altKey) || e.key == "ArrowUp" || e.key == "ArrowDown"

/-- Embeds the Ctrl+A branch body of `handleKeydown`:
`options.forEach(opt => opt?.selected ? opt.deselect?.() : opt.select?.())` —
toggle every option flag, each toggle emitting its selection-change event
through the Panel handler. -/
def toggleAllOptions (s : PanelState T) : PanelState T :=
  (List.range s.options.length).foldl (fun acc i => userToggleOption acc i) s

/-- Embeds `handleKeydown` of the refactored Trigger (`part_001` lines
197-241): a close combination closes the overlay and returns; an open
combination opens (falling through); Ctrl+A while open in multiple mode
toggles every option and returns; Enter/Space on an active item while open
toggles that item (in single mode re-affirming it as active — the `focus()`
call raises no new focus-in event since the input already holds focus) and
returns; every other event is delegated to the key manager. -/
def handleKeydown (s : TriggerState T) (e : KeyEvent) : TriggerState T :=
  let activeIndex := s.km.active
  let isActive : Option (Nat × Opt T) :=
    match activeIndex with
    | some i => (s.panel.options.get? i).map (fun o => (i, o))
    | none => none
  let multiple := s.panel.multiple
  if isKeydownCloseOverlay e then closeOverlay s
  else
    let s1 := if isKeydownOpenOverlay e then handleFocus s else s
    if multiple && e.key == "a" && e.ctrlKey && s1.panelOpen then
      { s1 with panel := toggleAllOptions s1.panel }
    else
      match isActive with
      | some (i, _) =>
        if s1.panelOpen && (e.key == "Enter" || e.key == " ") then
          let s2 := { s1 with panel := userToggleOption s1.panel i }
          if multiple then s2 else { s2 with km := ⟨some i⟩ }
        else { s1 with km := KeyNav.onKeydown noSkip s1.panel.options s1.km e }
      | none => { s1 with km := KeyNav.onKeydown noSkip s1.panel.options s1.km e }

/-- JavaScript truthiness of a nullable string: non-null and non-empty. -/
def strTruthy : Option String → Bool
  | some s => !s.isEmpty
  | none => false

/-- Embeds `getPanelAriaLabelledby` (`auto-complete.ts` lines 206-212; the
`part_000` variant at lines 379-389 behaves identically because signal inputs
are always functions): an explicit aria-label suppresses the labelledby
entirely; otherwise the label id (when truthy, with a trailing space) is
prefixed to the configured labelledby; with no configured labelledby the
label id is returned as is. -/
def getPanelAriaLabelledby (ariaLabel ariaLabelledby labelId : Option String) :
    Option String :=
  if strTruthy ariaLabel then none
  else
    let labelExpression := if strTruthy labelId then labelId.getD "" ++ " " else ""
    if strTruthy ariaLabelledby then some (labelExpression ++ ariaLabelledby.getD "")
    else labelId

/-- One connected position entry (origin corner paired to overlay corner). -/
structure ConnectedPosition where
  originX : String
  originY : String
  overlayX : String
  overlayY : String
  deriving Repr, DecidableEq

/-- Embeds the `positions` array of the Trigger (`part_001` lines 132-137):
below-start, below-end, above-start, above-end. -/
def autocompletePositions : List ConnectedPosition :=
  [ ⟨"start", "bottom", "start", "top"⟩
  , ⟨"end", "bottom", "end", "top"⟩
  , ⟨"start", "top", "start", "bottom"⟩
  , ⟨"end", "top", "end", "bottom"⟩ ]

/-- The anchor (connected overlay origin) element, reduced to the geometry the
Trigger reads from it. -/
structure Anchor where
  offsetWidth : Nat
  deriving Repr, DecidableEq

/-- The position strategy as the Trigger configures it: anchored to the
origin, no flexible dimensions, no push, the four fallback positions. -/
structure PositionStrategyModel where
  origin : Anchor
  flexibleDimensions : Bool
  push : Bool
  positions : List ConnectedPosition
  deriving Repr, DecidableEq

/-- Embeds `getOverlayPosition` of the refactored Trigger (`part_001` lines
371-385): with no resolvable origin it throws a configuration error
(`AutoCompleteDirective: Could not find connected overlay origin`), else it
builds the strategy `withFlexibleDimensions(false).withPush(false)
.withPositions(positions)`. -/
def getOverlayPosition (origin : Option Anchor) : Except String PositionStrategyModel :=
  match origin with
  | none => Except.error "AutoCompleteDirective: Could not find connected overlay origin"
  | some o =>
    Except.ok
      { origin := o
        flexibleDimensions := false
        push := false
        positions := autocompletePositions }

/-- The single-mode inductive invariant of the Panel: single mode on both the
component and its model, model selection of size at most 1, and the published
value mirroring the model selection. -/
def SingleModeInv (s : PanelState T) : Prop :=
  s.multiple = false ∧ s.model.multiple = false ∧
    s.model.selected.length ≤ 1 ∧ s.published = s.model.selected

/-- A small concrete Trigger state (three fresh options, closed overlay) used
to instantiate the trigger theorems. -/
def sampleTrigger : TriggerState Nat :=
  { panel := panelInit Nat false [⟨1, false⟩, ⟨2, false⟩, ⟨3, false⟩]
    km := ⟨none⟩
    attached := false
    portalBuilt := false
    portalBuildCount := 0
    panelOpen := false
    isOpenSignal := false
    openedCount := 0
    closedCount := 0
    autoActiveFirstOption := false }

/-- An Escape keydown with no modifiers. -/
def escapeKey : KeyEvent :=
  { key := "Escape", altKey := false, ctrlKey := false, shiftKey := false, metaKey := false }

/-- A concrete multiple-mode Panel state with every option selected. -/
def sampleAllSelected : PanelState Nat :=
  { multiple := true
    options := [⟨1, true⟩, ⟨2, true⟩]
    model := ⟨true, none, [1]⟩
    published := [1]
    singleSelectionEvents := 0 }

/-- A concrete multiple-mode Panel state with every option unselected. -/
def sampleAllUnselected : PanelState Nat :=
  { multiple := true
    options := [⟨1, false⟩, ⟨2, false⟩]
    model := ⟨true, none, [1]⟩
    published := [1]
    singleSelectionEvents := 0 }

/-- A concrete skip predicate used to instantiate the navigation theorem:
skip the item whose value is 2. -/
def skipSample : Opt Nat → Bool := fun o => decide (o.value = 2)

/-- A concrete item list used to instantiate the navigation theorem. -/
def itemsSample : List (Opt Nat) := [⟨1, false⟩, ⟨2, false⟩, ⟨3, false⟩]

/-! ## Helper lemmas about the Selection Model -/

theorem SelectionModel.cmp_none (m : SelectionModel T) (hc : m.compareWith = none) :
    m.cmp = fun u v => decide (u = v) := by
  unfold SelectionModel.cmp
  rw [hc]

theorem SelectionModel.isSelected_none_iff (m : SelectionModel T)
    (hc : m.compareWith = none) (v : T) :
    m.isSelected v = true ↔ v ∈ m.selected := by
  unfold SelectionModel.isSelected
  rw [SelectionModel.cmp_none m hc]
  simp [List.any_eq_true]

theorem SelectionModel.select_multiple (m : SelectionModel T) (v : T) :
    (m.select v).multiple = m.multiple := by
  unfold SelectionModel.select
  split <;> try rfl
  split <;> rfl

theorem SelectionModel.select_compareWith (m : SelectionModel T) (v : T) :
    (m.select v).compareWith = m.compareWith := by
  unfold SelectionModel.select
  split <;> try rfl
  split <;> rfl

theorem SelectionModel.toggle_multiple (m : SelectionModel T) (v : T) :
    (m.toggle v).multiple = m.multiple := by
  unfold SelectionModel.toggle SelectionModel.deselect
  split
  · rfl
  · exact m.select_multiple v

theorem SelectionModel.toggle_compareWith (m : SelectionModel T) (v : T) :
    (m.toggle v).compareWith = m.compareWith := by
  unfold SelectionModel.toggle SelectionModel.deselect
  split
  · rfl
  · exact m.select_compareWith v

theorem SelectionModel.toggle_on_single (m : SelectionModel T) (v : T)
    (hm : m.multiple = false) (hs : m.isSelected v = false) :
    (m.toggle v).selected = [v] := by
  unfold SelectionModel.toggle SelectionModel.select
  rw [hs, hm]
  simp

theorem SelectionModel.toggle_single_length (m : SelectionModel T) (v : T)
    (hm : m.multiple = false) (hlen : m.selected.length ≤ 1) :
    (m.toggle v).selected.length ≤ 1 := by
  unfold SelectionModel.toggle
  split
  · exact le_trans (List.length_filter_le _ _) hlen
  · unfold SelectionModel.select
    rw [hm]
    split
    · exact hlen
    · simp

theorem SelectionModel.toggle_eq_deselect (m : SelectionModel T) (v : T)
    (hs : m.isSelected v = true) : m.toggle v = m.deselect v := by
  unfold SelectionModel.toggle
  rw [hs]
  simp

theorem SelectionModel.toggle_eq_select (m : SelectionModel T) (v : T)
    (hs : m.isSelected v = false) : m.toggle v = m.select v := by
  unfold SelectionModel.toggle
  rw [hs]
  simp

theorem SelectionModel.deselect_multiple (m : SelectionModel T) (v : T) :
    (m.deselect v).multiple = m.multiple := rfl

theorem SelectionModel.deselect_compareWith (m : SelectionModel T) (v : T) :
    (m.deselect v).compareWith = m.compareWith := rfl

theorem SelectionModel.deselect_selected_none (m : SelectionModel T) (v : T)
    (hc : m.compareWith = none) :
    (m.deselect v).selected = m.selected.filter (fun u => !decide (u = v)) := by
  unfold SelectionModel.deselect
  rw [SelectionModel.cmp_none m hc]

theorem SelectionModel.select_selected_of_not (m : SelectionModel T) (v : T)
    (hm : m.multiple = true) (hs : m.isSelected v = false) :
    (m.select v).selected = m.selected ++ [v] := by
  unfold SelectionModel.select
  rw [hs, hm]
  simp

theorem SelectionModel.select_selected_single (m : SelectionModel T) (v : T)
    (hm : m.multiple = false) (hs : m.isSelected v = false) :
    (m.select v).selected = [v] := by
  unfold SelectionModel.select
  rw [hs, hm]
  simp

theorem SelectionModel.isSelected_deselect_none (m : SelectionModel T) (v : T)
    (hc : m.compareWith = none) :
    (m.deselect v).isSelected v = false := by
  have hc2 : (m.deselect v).compareWith = none := hc
  rw [Bool.eq_false_iff]
  intro hcon
  have hv := ((m.deselect v).isSelected_none_iff hc2 v).mp hcon
  rw [SelectionModel.deselect_selected_none m v hc] at hv
  have := (List.mem_filter.mp hv).2
  simp at this

theorem SelectionModel.eq_of_fields {S : Type} {m1 m2 : SelectionModel S}
    (h1 : m1.multiple = m2.multiple) (h2 : m1.compareWith = m2.compareWith)
    (h3 : m1.selected = m2.selected) : m1 = m2 := by
  cases m1
  cases m2
  simp_all

theorem SelectionModel.toggle_toggle_mem_multiple (m : SelectionModel T) (v : T)
    (hm : m.multiple = true) (hc : m.compareWith = none) (u : T) :
    u ∈ ((m.toggle v).toggle v).selected ↔ u ∈ m.selected := by
  by_cases hsel : m.isSelected v = true
  · have hv : v ∈ m.selected := (m.isSelected_none_iff hc v).mp hsel
    have hdsel := m.isSelected_deselect_none v hc
    rw [m.toggle_eq_deselect v hsel,
      SelectionModel.toggle_eq_select _ v hdsel,
      SelectionModel.select_selected_of_not _ v
        (by rw [SelectionModel.deselect_multiple, hm]) hdsel,
      SelectionModel.deselect_selected_none m v hc]
    simp only [List.mem_append, List.mem_filter, List.mem_singleton]
    by_cases huv : u = v
    · subst huv
      simp [hv]
    · simp [huv]
  · have hsel' : m.isSelected v = false := Bool.eq_false_iff.mpr hsel
    have hnv : ∀ w ∈ m.selected, ¬(w = v) := by
      intro w hw hwv
      exact hsel ((m.isSelected_none_iff hc v).mpr (hwv ▸ hw))
    have hselsel : (m.select v).selected = m.selected ++ [v] :=
      m.select_selected_of_not v hm hsel'
    have hc2 : (m.select v).compareWith = none := by
      rw [m.select_compareWith v, hc]
    have hs2 : (m.select v).isSelected v = true := by
      rw [(m.select v).isSelected_none_iff hc2 v, hselsel]
      simp
    rw [m.toggle_eq_select v hsel',
      SelectionModel.toggle_eq_deselect _ v hs2,
      SelectionModel.deselect_selected_none _ v hc2, hselsel,
      List.filter_append]
    have hkeep : m.selected.filter (fun u => !decide (u = v)) = m.selected := by
      apply List.filter_eq_self.mpr
      intro a ha
      simpa using hnv a ha
    rw [hkeep]
    simp

theorem SelectionModel.toggle_toggle_single_restore (m : SelectionModel T) (v : T)
    (hm : m.multiple = false) (hc : m.compareWith = none)
    (hS : m.selected = [] ∨ m.selected = [v]) :
    (m.toggle v).toggle v = m := by
  rcases hS with hS | hS
  · have hsel : m.isSelected v = false := by
      rw [Bool.eq_false_iff]
      intro hcon
      have := (m.isSelected_none_iff hc v).mp hcon
      rw [hS] at this
      cases this
    have hsel1 : (m.select v).selected = [v] := m.select_selected_single v hm hsel
    have hc2 : (m.select v).compareWith = none := by
      rw [m.select_compareWith, hc]
    have hs2 : (m.select v).isSelected v = true := by
      rw [(m.select v).isSelected_none_iff hc2, hsel1]
      simp
    rw [m.toggle_eq_select v hsel, SelectionModel.toggle_eq_deselect _ v hs2]
    refine SelectionModel.eq_of_fields ?_ ?_ ?_
    · rw [SelectionModel.deselect_multiple, m.select_multiple]
    · rw [SelectionModel.deselect_compareWith, hc2, hc]
    · rw [SelectionModel.deselect_selected_none _ v hc2, hsel1, hS]
      simp
  · have hsel : m.isSelected v = true := by
      rw [m.isSelected_none_iff hc, hS]
      simp
    have hdsel := m.isSelected_deselect_none v hc
    have hd1 : (m.deselect v).selected = [] := by
      rw [SelectionModel.deselect_selected_none m v hc, hS]
      simp
    rw [m.toggle_eq_deselect v hsel, SelectionModel.toggle_eq_select _ v hdsel]
    refine SelectionModel.eq_of_fields ?_ ?_ ?_
    · rw [SelectionModel.select_multiple, SelectionModel.deselect_multiple]
    · rw [SelectionModel.select_compareWith, SelectionModel.deselect_compareWith, hc]
    · rw [SelectionModel.select_selected_single _ v
        (by rw [SelectionModel.deselect_multiple, hm]) hdsel, hS]

/-! ## Claim theorems: Selection Model laws -/

/-- Claim C2 (code-bug evidence): the spec and the `compareWith` input
documentation promise that selection membership is decided by the
caller-supplied equality function, but `ngOnInit` constructs the model as
`new SelectionModel<T>(this.multipleInput())` without passing it. With
`compareWith u v = (u % 2 == v % 2)` configured, after selecting value 1 the
stored value 1 satisfies `compareWith 1 3`, yet `isSelected 3` is reported
false: the model fell back to structural equality. -/
theorem compareWith_not_wired_to_model :
    ((ngOnInitSelectionModel Nat false).select 1).selected = [1] ∧
    (fun u v : Nat => u % 2 == v % 2) 1 3 = true ∧
    ((ngOnInitSelectionModel Nat false).select 1).isSelected 3 = false := by
  decide

/-- Claim C4 (counterexample): toggle applied twice is not the identity on
selection states. In single mode with prior selection `[1]`, toggling the
fresh value 2 twice ends with the empty selection, not the prior state. -/
theorem toggle_twice_not_involutive_cex :
    ((ngOnInitSelectionModel Nat false).select 1).selected = [1] ∧
    (((((ngOnInitSelectionModel Nat false).select 1).toggle 2).toggle 2)).selected = [] := by
  decide

/-- Claim C4 (amended): with the model as the repository constructs it (no
`compareWith` passed), toggling the same value twice restores the prior
selection up to membership in multiple mode; in single mode it restores the
prior state exactly when the prior selection was empty or was exactly the
toggled value (toggling a fresh value twice while another value is selected
empties the selection instead). -/
theorem toggle_twice_amended (m : SelectionModel T) (v : T)
    (hc : m.compareWith = none) :
    (m.multiple = true → ∀ u, u ∈ ((m.toggle v).toggle v).selected ↔ u ∈ m.selected) ∧
    (m.multiple = false → m.selected = [] ∨ m.selected = [v] →
      (m.toggle v).toggle v = m) :=
  ⟨fun hm u => m.toggle_toggle_mem_multiple v hm hc u,
   fun hm hS => m.toggle_toggle_single_restore v hm hc hS⟩

/-- Witness for the amended C4 theorem at concrete inputs. -/
theorem toggle_twice_amended_witness :
    (1 ∈ ((((⟨true, none, [1, 2]⟩ : SelectionModel Nat).toggle 2).toggle 2)).selected ↔
      1 ∈ ([1, 2] : List Nat)) ∧
    ((((⟨false, none, []⟩ : SelectionModel Nat).toggle 5).toggle 5)) =
      (⟨false, none, []⟩ : SelectionModel Nat) :=
  ⟨(toggle_twice_amended (⟨true, none, [1, 2]⟩ : SelectionModel Nat) 2 rfl).1 rfl 1,
   (toggle_twice_amended (⟨false, none, []⟩ : SelectionModel Nat) 5 rfl).2 rfl (Or.inl rfl)⟩

/-! ## Claim theorems: ARIA label computation and overlay position -/

/-- Claim C8: `getPanelAriaLabelledby` satisfies all three cases: a truthy
explicit aria-label yields null regardless of the other inputs; with no
aria-label, label id f1 and labelledby l1 it yields the string f1 l1; with no
aria-label and no labelledby it yields the label id f1 alone. -/
theorem getPanelAriaLabelledby_cases :
    (∀ ariaLabel ariaLabelledby labelId : Option String,
      strTruthy ariaLabel = true →
      getPanelAriaLabelledby ariaLabel ariaLabelledby labelId = none) ∧
    getPanelAriaLabelledby none (some "l1") (some "f1") = some "f1 l1" ∧
    getPanelAriaLabelledby none none (some "f1") = some "f1" := by
  refine ⟨?_, by decide, by decide⟩
  intro al alb lid h
  unfold getPanelAriaLabelledby
  rw [h]
  simp

/-- Witness for C8 at concrete inputs. -/
theorem getPanelAriaLabelledby_cases_witness :
    getPanelAriaLabelledby (some "pick one") (some "l1") (some "f1") = none ∧
    getPanelAriaLabelledby none (some "l1") (some "f1") = some "f1 l1" ∧
    getPanelAriaLabelledby none none (some "f1") = some "f1" :=
  ⟨getPanelAriaLabelledby_cases.1 (some "pick one") (some "l1") (some "f1") (by decide),
   getPanelAriaLabelledby_cases.2.1,
   getPanelAriaLabelledby_cases.2.2⟩

/-- Claim C9: computing the overlay position with no resolvable anchor
(connected overlay origin) throws the configuration error, and with a
resolvable anchor it succeeds without throwing. -/
theorem getOverlayPosition_origin_spec :
    (getOverlayPosition none).isOk = false ∧
    ∀ o : Anchor, (getOverlayPosition (some o)).isOk = true :=
  ⟨rfl, fun _ => rfl⟩

/-! ## Helper lemmas and claim theorems for the Trigger overlay lifecycle -/

theorem openOverlay_fields {S : Type} (s : TriggerState S) :
    (openOverlay s).attached = true ∧
    (openOverlay s).panelOpen = true ∧
    (openOverlay s).openedCount = s.openedCount + 1 ∧
    (openOverlay s).portalBuilt = true ∧
    (s.portalBuilt = false →
      (openOverlay s).portalBuildCount = s.portalBuildCount + 1) := by
  unfold openOverlay
  by_cases hp : s.portalBuilt <;> by_cases ha : s.autoActiveFirstOption <;>
    simp [hp, ha]

/-- Claim C10: on a focus-in event, an unattached overlay is opened — the
portal is attached and the open state set — while an attached overlay leaves
the state entirely unchanged. -/
theorem focus_opens_or_leaves_unchanged {S : Type} (s : TriggerState S) :
    (s.attached = false →
      handleFocus s = openOverlay s ∧ (handleFocus s).attached = true ∧
        (handleFocus s).panelOpen = true) ∧
    (s.attached = true → handleFocus s = s) := by
  constructor
  · intro h
    have he : handleFocus s = openOverlay s := by
      unfold handleFocus
      rw [h]
      simp
    refine ⟨he, ?_, ?_⟩
    · rw [he]
      exact (openOverlay_fields s).1
    · rw [he]
      exact (openOverlay_fields s).2.1
  · intro h
    unfold handleFocus
    rw [h]
    simp

/-- Witness for C10 at concrete states: the sample closed state opens, and the
same state with the overlay attached stays unchanged. -/
theorem focus_opens_or_leaves_unchanged_witness :
    (handleFocus sampleTrigger).attached = true ∧
    handleFocus { sampleTrigger with attached := true } =
      { sampleTrigger with attached := true } :=
  ⟨((focus_opens_or_leaves_unchanged sampleTrigger).1 rfl).2.1,
   (focus_opens_or_leaves_unchanged { sampleTrigger with attached := true }).2 rfl⟩

/-- Claim C6: opening is idempotent with respect to the attached state: from
an unattached state the first `open` attaches and emits `opened` once, and a
second `open` is a no-op, so across the two calls `opened` fires exactly once
and the portal is built only on the first call. (`handleFocus` is the open
operation: it is the only caller of `openOverlay` in the repository, guarding
it with the attached check.) -/
theorem open_twice_opened_once {S : Type} (s : TriggerState S) (h : s.attached = false) :
    handleFocus (handleFocus s) = handleFocus s ∧
    (handleFocus s).openedCount = s.openedCount + 1 ∧
    (handleFocus s).portalBuilt = true ∧
    (s.portalBuilt = false →
      (handleFocus s).portalBuildCount = s.portalBuildCount + 1) := by
  have he : handleFocus s = openOverlay s := by
    unfold handleFocus
    rw [h]
    simp
  have hf := openOverlay_fields s
  refine ⟨?_, he ▸ hf.2.2.1, he ▸ hf.2.2.2.1, he ▸ hf.2.2.2.2⟩
  conv_lhs => rw [he]
  unfold handleFocus
  rw [hf.1, h]
  simp

/-- Witness for C6 at the concrete sample state. -/
theorem open_twice_opened_once_witness :
    handleFocus (handleFocus sampleTrigger) = handleFocus sampleTrigger ∧
    (handleFocus sampleTrigger).openedCount = sampleTrigger.openedCount + 1 ∧
    (handleFocus sampleTrigger).portalBuildCount = sampleTrigger.portalBuildCount + 1 :=
  ⟨(open_twice_opened_once sampleTrigger rfl).1,
   (open_twice_opened_once sampleTrigger rfl).2.1,
   (open_twice_opened_once sampleTrigger rfl).2.2.2 rfl⟩

/-- Claim C5: a keydown matching a close combination — Escape with no
modifier keys, or ArrowUp with the Alt modifier — makes `handleKeydown`
close the overlay and stop: the result is exactly `closeOverlay` of the
incoming state, so in particular the event is not forwarded to the key
manager's `onKeydown`. -/
theorem close_combination_closes_and_stops (s : TriggerState T) (e : KeyEvent)
    (h : (e.key = "Escape" ∧ hasAnyModifier e = false) ∨
      (e.key = "ArrowUp" ∧ e.altKey = true)) :
    handleKeydown s e = closeOverlay s := by
  have hc : isKeydownCloseOverlay e = true := by
    rcases h with ⟨h1, h2⟩ | ⟨h1, h2⟩ <;>
      simp [isKeydownCloseOverlay, h1, h2]
  unfold handleKeydown
  rw [hc]
  simp

/-- Witness for C5: an Escape keydown with no modifiers on the sample state. -/
theorem close_combination_closes_and_stops_witness :
    handleKeydown sampleTrigger escapeKey = closeOverlay sampleTrigger :=
  close_combination_closes_and_stops sampleTrigger escapeKey (Or.inl ⟨rfl, rfl⟩)

/-! ## Helper lemmas and claim theorems for the Panel selection handler -/

theorem onSelectionChangeEvent_single (s : PanelState T) (v : T)
    (h1 : s.multiple = false) :
    onSelectionChangeEvent s v =
      { s with
          model := s.model.toggle v
          published := (s.model.toggle v).selected
          options := resyncSingle (s.model.toggle v) s.options
          singleSelectionEvents := s.singleSelectionEvents + 1 } := by
  unfold onSelectionChangeEvent
  rw [h1]
  simp

theorem singleModeInv_init {S : Type} (opts : List (Opt S)) :
    SingleModeInv (panelInit S false opts) := by
  refine ⟨rfl, rfl, ?_, rfl⟩
  simp [panelInit, ngOnInitSelectionModel]

theorem singleModeInv_step (s : PanelState T) (v : T) (hI : SingleModeInv s) :
    SingleModeInv (onSelectionChangeEvent s v) := by
  obtain ⟨h1, h2, h3, h4⟩ := hI
  rw [onSelectionChangeEvent_single s v h1]
  exact ⟨h1, by rw [SelectionModel.toggle_multiple]; exact h2,
    s.model.toggle_single_length v h2 h3, rfl⟩

theorem singleModeInv_foldl (vs : List T) (s : PanelState T) (hI : SingleModeInv s) :
    SingleModeInv (vs.foldl onSelectionChangeEvent s) := by
  induction vs generalizing s with
  | nil => exact hI
  | cons v vs ih =>
    rw [List.foldl_cons]
    exact ih _ (singleModeInv_step s v hI)

/-- Claim C1: in single mode, folding the option-selection handler over any
event sequence keeps the published `selected` value at size at most 1, and an
event toggling a value on (the value was not selected before the event)
publishes exactly that value — so a new selection replaces the old one rather
than accumulating. -/
theorem single_mode_selected_spec (opts : List (Opt T)) (vs : List T) (v : T) :
    ((vs.foldl onSelectionChangeEvent (panelInit T false opts)).published.length ≤ 1) ∧
    ((vs.foldl onSelectionChangeEvent (panelInit T false opts)).model.isSelected v = false →
      (onSelectionChangeEvent
        (vs.foldl onSelectionChangeEvent (panelInit T false opts)) v).published = [v]) := by
  obtain ⟨h1, h2, h3, h4⟩ := singleModeInv_foldl vs _ (singleModeInv_init opts)
  constructor
  · rw [h4]
    exact h3
  · intro hsel
    rw [onSelectionChangeEvent_single _ v h1]
    exact SelectionModel.toggle_on_single _ v h2 hsel

/-- Witness for C1 at a concrete event sequence: after selecting value 1,
selecting value 2 publishes exactly `[2]`. -/
theorem single_mode_selected_spec_witness :
    (([1] : List Nat).foldl onSelectionChangeEvent
        (panelInit Nat false [⟨1, false⟩, ⟨2, false⟩])).published.length ≤ 1 ∧
    (onSelectionChangeEvent
      (([1] : List Nat).foldl onSelectionChangeEvent
        (panelInit Nat false [⟨1, false⟩, ⟨2, false⟩])) 2).published = [2] :=
  ⟨(single_mode_selected_spec [⟨1, false⟩, ⟨2, false⟩] [1] 2).1,
   (single_mode_selected_spec [⟨1, false⟩, ⟨2, false⟩] [1] 2).2 (by decide)⟩

theorem SelectionModel.mem_select_none (m : SelectionModel T) (v u : T)
    (hm : m.multiple = true) (hc : m.compareWith = none) :
    u ∈ (m.select v).selected ↔ u ∈ m.selected ∨ u = v := by
  by_cases hs : m.isSelected v = true
  · have hv := (m.isSelected_none_iff hc v).mp hs
    have he : m.select v = m := by
      unfold SelectionModel.select
      rw [hs]
      simp
    rw [he]
    constructor
    · exact Or.inl
    · rintro (h | rfl)
      · exact h
      · exact hv
  · have hs' : m.isSelected v = false := Bool.eq_false_iff.mpr hs
    rw [m.select_selected_of_not v hm hs']
    simp

theorem SelectionModel.mem_foldl_select (vs : List T) (m : SelectionModel T) (u : T)
    (hm : m.multiple = true) (hc : m.compareWith = none) :
    u ∈ (vs.foldl (fun acc v => acc.select v) m).selected ↔
      u ∈ m.selected ∨ u ∈ vs := by
  induction vs generalizing m with
  | nil => simp
  | cons v vs ih =>
    rw [List.foldl_cons,
      ih (m.select v) (by rw [m.select_multiple]; exact hm)
        (by rw [m.select_compareWith]; exact hc),
      m.mem_select_none v u hm hc]
    simp [List.mem_cons]
    tauto

theorem SelectionModel.mem_setSelection_none (m : SelectionModel T) (vs : List T) (u : T)
    (hm : m.multiple = true) (hc : m.compareWith = none) :
    u ∈ (m.setSelection vs).selected ↔ u ∈ vs := by
  unfold SelectionModel.setSelection
  rw [SelectionModel.mem_foldl_select vs { m with selected := [] } u hm hc]
  simp

theorem options_nil_of_all_selected_and_unselected {S : Type} {l : List (Opt S)}
    (h1 : l.all (fun o => o.selected) = true)
    (h2 : l.all (fun o => !o.selected) = true) : l = [] := by
  cases l with
  | nil => rfl
  | cons o t =>
    exfalso
    simp [List.all_cons] at h1 h2
    obtain ⟨h1a, _⟩ := h1
    obtain ⟨h2a, _⟩ := h2
    rw [h1a] at h2a
    cases h2a

theorem published_step_multiple (s : PanelState T) (v : T) (h1 : s.multiple = true)
    (hall : s.options.all (fun o => o.selected) = true)
    (hall2 : s.options.all (fun o => !o.selected) = false) :
    (onSelectionChangeEvent s v).published =
      ((s.model.toggle v).setSelection (s.options.map (fun o => o.value))).selected := by
  unfold onSelectionChangeEvent
  rw [h1, hall, hall2]
  simp

theorem published_step_multiple_clear (s : PanelState T) (v : T) (h1 : s.multiple = true)
    (hall2 : s.options.all (fun o => !o.selected) = true) :
    (onSelectionChangeEvent s v).published = [] := by
  unfold onSelectionChangeEvent
  rw [h1, hall2]
  simp [SelectionModel.clear]

/-- Claim C3: in multiple mode, an event whose processing sees every rendered
option selected reconciles the Selection Model to exactly the full rendered
value set (as published), and an event whose processing sees every option
unselected clears it. -/
theorem multi_mode_saturation (s : PanelState T) (v : T)
    (h1 : s.multiple = true) (h2 : s.model.multiple = true)
    (h3 : s.model.compareWith = none) :
    (s.options.all (fun o => o.selected) = true →
      ∀ u, u ∈ (onSelectionChangeEvent s v).published ↔
        u ∈ s.options.map (fun o => o.value)) ∧
    (s.options.all (fun o => !o.selected) = true →
      (onSelectionChangeEvent s v).published = []) := by
  constructor
  · intro hall u
    by_cases hall2 : s.options.all (fun o => !o.selected) = true
    · have hnil := options_nil_of_all_selected_and_unselected hall hall2
      rw [published_step_multiple_clear s v h1 hall2, hnil]
      simp
    · have hall2' : s.options.all (fun o => !o.selected) = false :=
        Bool.eq_false_iff.mpr hall2
      rw [published_step_multiple s v h1 hall hall2']
      exact SelectionModel.mem_setSelection_none _ _ u
        (by rw [SelectionModel.toggle_multiple]; exact h2)
        (by rw [SelectionModel.toggle_compareWith]; exact h3)
  · intro hall2
    exact published_step_multiple_clear s v h1 hall2

/-- Witness for C3 at concrete states: with both options selected the
published set contains the full rendered set; with both unselected it is
empty. -/
theorem multi_mode_saturation_witness :
    2 ∈ (onSelectionChangeEvent sampleAllSelected 2).published ∧
    (onSelectionChangeEvent sampleAllUnselected 1).published = [] :=
  ⟨((multi_mode_saturation sampleAllSelected 2 rfl rfl rfl).1 (by decide) 2).mpr (by decide),
   (multi_mode_saturation sampleAllUnselected 1 rfl rfl rfl).2 (by decide)⟩

/-! ## Helper lemmas and claim theorem for key navigation wrap-around -/

theorem navigableIdxs_pairwise {S : Type} (skip : Opt S → Bool) (items : List (Opt S)) :
    (navigableIdxs skip items).Pairwise (· < ·) :=
  (List.pairwise_lt_range items.length).sublist (List.filter_sublist _)

theorem pairwise_getLast_max {l : List Nat} (hp : l.Pairwise (· < ·)) :
    ∀ {m x : Nat}, l.getLast? = some m → x ∈ l → x ≤ m := by
  induction hp with
  | nil =>
    intro m x _ hx
    cases hx
  | @cons a t ha _ ih =>
    intro m x hl hx
    cases t with
    | nil =>
      simp at hl hx
      omega
    | cons b t2 =>
      rw [List.getLast?_cons_cons] at hl
      rcases List.mem_cons.mp hx with rfl | hx2
      · exact le_of_lt (ha m (List.mem_of_mem_getLast? hl))
      · exact ih hl hx2

theorem pairwise_head_min {l : List Nat} (hp : l.Pairwise (· < ·)) :
    ∀ {m x : Nat}, l.head? = some m → x ∈ l → m ≤ x := by
  cases l with
  | nil =>
    intro m x _ hx
    cases hx
  | cons a t =>
    intro m x hl hx
    simp at hl
    subst hl
    rcases List.mem_cons.mp hx with rfl | hx2
    · exact le_refl x
    · exact le_of_lt (List.rel_of_pairwise_cons hp hx2)

theorem filter_gt_getLast_nil {l : List Nat} (hp : l.Pairwise (· < ·)) {m : Nat}
    (hl : l.getLast? = some m) :
    l.filter (fun i => decide (m < i)) = [] := by
  apply List.filter_eq_nil_iff.mpr
  intro a ha
  have := pairwise_getLast_max hp hl ha
  simp
  omega

theorem filter_lt_head_nil {l : List Nat} (hp : l.Pairwise (· < ·)) {m : Nat}
    (hl : l.head? = some m) :
    l.filter (fun i => decide (i < m)) = [] := by
  apply List.filter_eq_nil_iff.mpr
  intro a ha
  have := pairwise_head_min hp hl ha
  simp
  omega

theorem navigableIdxs_ne_nil {S : Type} (skip : Opt S → Bool) (items : List (Opt S))
    (h : ∃ o ∈ items, skip o = false) : navigableIdxs skip items ≠ [] := by
  obtain ⟨o, ho, hso⟩ := h
  obtain ⟨i, hi⟩ := List.mem_iff_get?.mp ho
  have hlt : i < items.length := by
    by_contra hge
    rw [List.get?_eq_none.mpr (Nat.le_of_not_lt hge)] at hi
    cases hi
  intro hnil
  have hmem : i ∈ navigableIdxs skip items := by
    unfold navigableIdxs
    rw [List.mem_filter]
    refine ⟨List.mem_range.mpr hlt, ?_⟩
    rw [hi]
    simp [hso]
  rw [hnil] at hmem
  cases hmem

/-- Claim C7: key navigation wraps at both boundaries. For any item list with
at least one non-skipped item, last-then-next activates the first navigable
index (head of `navigableIdxs`, the index of the first non-skipped item), and
first-then-previous activates the last navigable index. -/
theorem key_navigation_wraps {S : Type} (skip : Opt S → Bool) (items : List (Opt S))
    (h : ∃ o ∈ items, skip o = false) :
    (KeyNav.setNextItemActive skip items
        (KeyNav.setLastItemActive skip items ⟨none⟩)).active =
      (navigableIdxs skip items).head? ∧
    (KeyNav.setPreviousItemActive skip items
        (KeyNav.setFirstItemActive skip items ⟨none⟩)).active =
      (navigableIdxs skip items).getLast? := by
  have hne := navigableIdxs_ne_nil skip items h
  have hp := navigableIdxs_pairwise skip items
  obtain ⟨F, hF⟩ : ∃ F, (navigableIdxs skip items).head? = some F := by
    cases hc : navigableIdxs skip items with
    | nil => exact absurd hc hne
    | cons a t => exact ⟨a, rfl⟩
  obtain ⟨L, hL⟩ : ∃ L, (navigableIdxs skip items).getLast? = some L := by
    cases hc : navigableIdxs skip items with
    | nil => exact absurd hc hne
    | cons a t =>
      exact ⟨(a :: t).getLast (by simp), List.getLast?_eq_getLast _ _⟩
  constructor
  · have h1 : KeyNav.setLastItemActive skip items ⟨none⟩ = ⟨some L⟩ := by
      unfold KeyNav.setLastItemActive
      rw [hL]
    rw [h1, hF]
    unfold KeyNav.setNextItemActive
    simp [filter_gt_getLast_nil hp hL, hF]
  · have h1 : KeyNav.setFirstItemActive skip items ⟨none⟩ = ⟨some F⟩ := by
      unfold KeyNav.setFirstItemActive
      rw [hF]
    rw [h1, hL]
    unfold KeyNav.setPreviousItemActive
    simp [filter_lt_head_nil hp hF, hL]

/-- Witness for C7 at a concrete list (the middle item skipped): next after
last wraps to index 0, previous before first wraps to index 2. -/
theorem key_navigation_wraps_witness :
    (KeyNav.setNextItemActive skipSample itemsSample
        (KeyNav.setLastItemActive skipSample itemsSample ⟨none⟩)).active = some 0 ∧
    (KeyNav.setPreviousItemActive skipSample itemsSample
        (KeyNav.setFirstItemActive skipSample itemsSample ⟨none⟩)).active = some 2 := by
  have h := key_navigation_wraps skipSample itemsSample
    ⟨⟨1, false⟩, by decide, by decide⟩
  exact ⟨h.1.trans (by decide), h.2.trans (by decide)⟩

end AngularLab
